import Mathlib

/-!
Shallow embedding of the ITDB Fact-Sheet Analyzer extraction utilities
(`src/extractors/json_extractor.py` and `src/extractors/pdf_parser.py`),
with theorems settling the specification claims about them.

External library calls (the Azure OpenAI chat completion, `json.loads`,
`json.dumps`, the langchain text splitter, the embeddings client) are
modelled as explicit function parameters or as steps in an effect trace;
everything written in the repository itself is translated directly.
-/

namespace ITDB

/-! ### Python string primitives used by `_extract_json_block` and `.strip()` -/

/-- Helper for `pyFind`: index of the first occurrence of `c` in the list,
starting the count at `i`. -/
def pyFindAux (c : Char) : List Char → Nat → Option Nat
  | [], _ => none
  | x :: xs, i => if x = c then some i else pyFindAux c xs (i + 1)

/-- Python `str.find(c)` for a single-character needle: index of the first
occurrence, or `-1` when absent. -/
def pyFind (s : String) (c : Char) : Int :=
  match pyFindAux c s.toList 0 with
  | some i => (i : Int)
  | none => -1

/-- Helper for `pyRfind`: index of the last occurrence of `c`, scanning with a
running counter `i` and remembering the best match so far. -/
def pyRfindAux (c : Char) : List Char → Nat → Option Nat → Option Nat
  | [], _, acc => acc
  | x :: xs, i, acc => pyRfindAux c xs (i + 1) (if x = c then some i else acc)

/-- Python `str.rfind(c)` for a single-character needle: index of the last
occurrence, or `-1` when absent. -/
def pyRfind (s : String) (c : Char) : Int :=
  match pyRfindAux c s.toList 0 none with
  | some i => (i : Int)
  | none => -1

/-- Python slice `s[start:stop]` for non-negative bounds: empty when
`stop ≤ start`. -/
def pySlice (s : String) (start stop : Nat) : String :=
  ⟨(s.toList.drop start).take (stop - start)⟩

/-- Python `str.strip()`: drop leading and trailing whitespace. -/
def pyStrip (s : String) : String :=
  ⟨((s.toList.dropWhile Char.isWhitespace).reverse.dropWhile
      Char.isWhitespace).reverse⟩

/-! ### `JSONExtractor._extract_json_block` -/

/-- Embedding of `JSONExtractor._extract_json_block` (json_extractor.py,
lines 133-140): take the substring from the first `\x7b` through the last
`\x7d` inclusive, raising `ValueError` when either delimiter is absent. -/
def extract_json_block (text : String) : Except String String :=
  let start := pyFind text '{'
  let stop := pyRfind text '}'
  if start = -1 ∨ stop = -1 then
    Except.error "No JSON object found in the model response"
  else
    Except.ok (pySlice text start.toNat (stop.toNat + 1))

/-! ### JSON values and the canonical schema -/

/-- JSON values, as produced by the external `json.loads`. -/
inductive Json where
  | null : Json
  | bool (b : Bool) : Json
  | num (n : Int) : Json
  | str (s : String) : Json
  | arr (xs : List Json) : Json
  | obj (fields : List (String × Json)) : Json

/-- Top-level keys of a JSON value (empty for non-objects). -/
def Json.keys : Json → List String
  | .obj fields => fields.map Prod.fst
  | _ => []

/-- Embedding of `JSONExtractor._SCHEMA` (json_extractor.py, lines 38-55),
the canonical schema all extractions must follow. -/
def SCHEMA : Json :=
  .obj
    [("year", .str "integer ‑ 4‑digit year of the fact sheet"),
     ("total_incidents", .str "integer total number of incidents reported"),
     ("nuclear_material_incidents",
        .str "integer incidents involving nuclear material"),
     ("radioactive_material_incidents",
        .str "integer incidents involving other radioactive material"),
     ("incidents_by_material",
        .obj
          [("uranium", .str "integer"),
           ("plutonium", .str "integer"),
           ("medical_isotopes", .str "integer")]),
     ("incidents_by_group",
        .obj
          [("theft_or_loss", .str "integer"),
           ("unauthorized_activities", .str "integer"),
           ("other", .str "integer")])]

/-! ### The extraction loop -/

/-- Result of one chat-completion call: the call raises, or returns a message
content string. The model is external, so each attempt's result is supplied
by an oracle. -/
inductive ModelResult where
  | raises : ModelResult
  | returns (content : String) : ModelResult

/-- Arguments passed to `client.chat.completions.create` on each attempt
(json_extractor.py, lines 90-105). -/
structure CallArgs where
  model : String
  system_content : String
  user_content : String
  max_tokens : Nat
  temperature : Float
  top_p : Float

/-- Embedding of the `JSONExtractor` instance state set in `__init__`
(json_extractor.py, lines 57-70). The `_client` field is the oracle giving
the result of the single model call made on each attempt number. -/
structure JSONExtractor where
  _client : Nat → CallArgs → ModelResult
  _deployment : String
  _temperature : Float
  _max_retries : Nat
  _max_tokens : Nat

/-- Default value of the `temperature` keyword of `JSONExtractor.__init__`. -/
def DEFAULT_TEMPERATURE : Float := 0.0

/-- Default value of the `max_retries` keyword of `JSONExtractor.__init__`. -/
def DEFAULT_MAX_RETRIES : Nat := 3

/-- Default value of the `max_tokens` keyword of `JSONExtractor.__init__`. -/
def DEFAULT_MAX_TOKENS : Nat := 1024

/-- Embedding of `JSONExtractor.__init__`: keyword arguments not supplied
(`none`) take their declared defaults. -/
def JSONExtractor.init (client : Nat → CallArgs → ModelResult)
    (deployment : String) (temperature : Option Float)
    (max_retries : Option Nat) (max_tokens : Option Nat) : JSONExtractor :=
  { _client := client
    _deployment := deployment
    _temperature := temperature.getD DEFAULT_TEMPERATURE
    _max_retries := max_retries.getD DEFAULT_MAX_RETRIES
    _max_tokens := max_tokens.getD DEFAULT_MAX_TOKENS }

/-- The fixed system message content (json_extractor.py, lines 95-99). -/
def SYSTEM_CONTENT : String :=
  "You are a data‑extraction assistant. Respond **only** with a JSON object matching the schema provided. Do not output any explanatory text."

/-- The fixed instruction opening the user prompt
(json_extractor.py, lines 124-126). -/
def INSTRUCTION : String :=
  "The following is an ITDB fact sheet. Parse its contents and output **only** a JSON object that matches this schema exactly—no additional keys and no prose:\n\n"

/-- Embedding of `JSONExtractor._build_prompt` (json_extractor.py, lines
121-131). `dumps` models the external `json.dumps(·, indent=2)`. -/
def _build_prompt (dumps : Json → String) (raw_text : String) : String :=
  let schema_str := dumps SCHEMA
  INSTRUCTION ++ schema_str ++ "\n\n--- BEGIN FACT SHEET ---\n" ++ raw_text
    ++ "\n--- END FACT SHEET ---"

/-- Result of `JSONExtractor.extract`: the parsed record, or the terminal
`RuntimeError` raised after the loop — the spec's `ExtractionExhausted` —
carrying the attempt count interpolated into its message. -/
inductive ExtractOutcome where
  | ok (record : Json) : ExtractOutcome
  | extractionExhausted (attempts : Nat) : ExtractOutcome

/-- One attempt of the `extract` loop body (json_extractor.py, lines 88-113):
a single model call, then `content.strip()`, `_extract_json_block`, and
`json.loads` (modelled by `parse`). Any failure along the way is caught by
the `except` clause and yields `none`. -/
def attemptStep (parse : String → Option Json) (x : JSONExtractor)
    (args : CallArgs) (attempt : Nat) : Option Json :=
  match x._client attempt args with
  | .raises => none
  | .returns content =>
    match extract_json_block (pyStrip content) with
    | .error _ => none
    | .ok json_str => parse json_str

/-- The `for attempt in range(1, max_retries + 1)` loop of `extract`,
recursing on the number of remaining attempts and returning the outcome
together with the log of model calls made (attempt number and arguments). -/
def extractGo (parse : String → Option Json) (x : JSONExtractor)
    (args : CallArgs) : Nat → ExtractOutcome × List (Nat × CallArgs)
  | 0 => (.extractionExhausted x._max_retries, [])
  | remaining + 1 =>
    let attempt := x._max_retries - remaining
    match attemptStep parse x args attempt with
    | some record => (.ok record, [(attempt, args)])
    | none =>
      let rest := extractGo parse x args remaining
      (rest.1, (attempt, args) :: rest.2)

/-- Embedding of `JSONExtractor.extract` (json_extractor.py, lines 76-115):
build the prompt once, then loop over attempts 1 .. `_max_retries`, raising
after the loop when no attempt succeeded. Returns the outcome and the call
log. `dumps` and `parse` model the external `json.dumps` / `json.loads`. -/
def JSONExtractor.extract (dumps : Json → String)
    (parse : String → Option Json) (x : JSONExtractor)
    (raw_text : String) : ExtractOutcome × List (Nat × CallArgs) :=
  let prompt := _build_prompt dumps raw_text
  let args : CallArgs :=
    { model := x._deployment
      system_content := SYSTEM_CONTENT
      user_content := prompt
      max_tokens := x._max_tokens
      temperature := x._temperature
      top_p := 1.0 }
  extractGo parse x args x._max_retries

/-- Embedding of the module-level convenience function `extract_json`
(json_extractor.py, lines 148-161): construct a `JSONExtractor` passing only
`client`, `deployment` and `temperature`, and call its `extract`. -/
def extract_json (dumps : Json → String) (parse : String → Option Json)
    (raw_text : String) (client : Nat → CallArgs → ModelResult)
    (deployment : String) (temperature : Float) :
    ExtractOutcome × List (Nat × CallArgs) :=
  let extractor :=
    JSONExtractor.init client deployment (some temperature) none none
  extractor.extract dumps parse raw_text

/-! ### `pdf_parser.py` -/

/-- Embedding of the statements written for `extract_text_from_pdf`
(pdf_parser.py, lines 59-61). In the source those statements are dedented to
module level — `with fitz.open(...) as doc:` and `return full_text` sit at
column 0 — so importing the module raises `SyntaxError` and the function can
never run; this definition embeds the statements with the indentation the
docstring and the unit test assume. The fitz document is modelled as the
list of its pages' `get_text()` results, in document order; the `with`
statement scopes the document so it is closed on every exit path. -/
def extract_text_from_pdf (doc : List String) : String :=
  String.intercalate "\n" doc

/-- External effects performed by `parse_and_embed`, in order. -/
inductive PipelineStep where
  | extractTextStep : PipelineStep
  | constructSplitterStep (chunk_size chunk_overlap : Nat) : PipelineStep
  | splitTextStep : PipelineStep
  | buildVectorstoreStep : PipelineStep
  | embedDocumentsStep : PipelineStep
deriving DecidableEq

/-- Embedding of `parse_and_embed` (pdf_parser.py, lines 67-121) as the
ordered trace of the external effects it performs: it first runs
`extract_text_from_pdf`, then constructs the
`RecursiveCharacterTextSplitter` with the given `chunk_size` and
`chunk_overlap`, and only if that external constructor accepts the
configuration (`splitter_ok`, external library behaviour) does it split and
then either build the FAISS store or embed the documents. The function body
contains no chunk-configuration validation of its own. -/
def parse_and_embed (splitter_ok : Nat → Nat → Bool) (doc : List String)
    (chunk_size chunk_overlap : Nat) (return_vectorstore : Bool) :
    List PipelineStep :=
  PipelineStep.extractTextStep ::
    PipelineStep.constructSplitterStep chunk_size chunk_overlap ::
    (if splitter_ok chunk_size chunk_overlap then
       PipelineStep.splitTextStep ::
         (if return_vectorstore then [PipelineStep.buildVectorstoreStep]
          else [PipelineStep.embedDocumentsStep])
     else [])

/-! ### Helper lemmas about the string primitives -/

lemma pyFindAux_eq_none_iff (c : Char) :
    ∀ (l : List Char) (i : Nat), pyFindAux c l i = none ↔ c ∉ l := by
  intro l
  induction l with
  | nil => intro i; simp [pyFindAux]
  | cons x xs ih =>
    intro i
    by_cases hx : x = c
    · subst hx
      simp [pyFindAux]
    · simp [pyFindAux, hx, ih, Ne.symm hx]

lemma pyRfindAux_eq_none_iff (c : Char) :
    ∀ (l : List Char) (i : Nat) (acc : Option Nat),
      pyRfindAux c l i acc = none ↔ (acc = none ∧ c ∉ l) := by
  intro l
  induction l with
  | nil => intro i acc; simp [pyRfindAux]
  | cons x xs ih =>
    intro i acc
    by_cases hx : x = c
    · subst hx
      simp [pyRfindAux, ih]
    · simp [pyRfindAux, hx, ih, Ne.symm hx]

lemma pyFind_eq_neg_one_iff (s : String) (c : Char) :
    pyFind s c = -1 ↔ c ∉ s.toList := by
  unfold pyFind
  rcases h : pyFindAux c s.toList 0 with _ | i
  · simpa using (pyFindAux_eq_none_iff c s.toList 0).mp h
  · have : c ∈ s.toList := by
      by_contra hc
      rw [(pyFindAux_eq_none_iff c s.toList 0).mpr hc] at h
      exact Option.noConfusion h
    simp only [this, not_true_eq_false, iff_false]
    omega

lemma pyRfind_eq_neg_one_iff (s : String) (c : Char) :
    pyRfind s c = -1 ↔ c ∉ s.toList := by
  unfold pyRfind
  rcases h : pyRfindAux c s.toList 0 none with _ | i
  · simpa using ((pyRfindAux_eq_none_iff c s.toList 0 none).mp h).2
  · have : c ∈ s.toList := by
      by_contra hc
      rw [(pyRfindAux_eq_none_iff c s.toList 0 none).mpr ⟨rfl, hc⟩] at h
      exact Option.noConfusion h
    simp only [this, not_true_eq_false, iff_false]
    omega

lemma pyFind_nonneg_of_ne (s : String) (c : Char) (h : pyFind s c ≠ -1) :
    0 ≤ pyFind s c := by
  unfold pyFind at h ⊢
  rcases hfa : pyFindAux c s.toList 0 with _ | i
  · rw [hfa] at h
    exact absurd rfl h
  · exact Int.ofNat_nonneg i

lemma pyRfind_nonneg_of_ne (s : String) (c : Char) (h : pyRfind s c ≠ -1) :
    0 ≤ pyRfind s c := by
  unfold pyRfind at h ⊢
  rcases hfa : pyRfindAux c s.toList 0 none with _ | i
  · rw [hfa] at h
    exact absurd rfl h
  · exact Int.ofNat_nonneg i

lemma pySlice_eq_empty (s : String) (start stop : Nat) (h : stop ≤ start) :
    pySlice s start stop = "" := by
  unfold pySlice
  rw [Nat.sub_eq_zero_of_le h]
  rfl

lemma mem_pyStrip (s : String) (c : Char) (h : c ∈ (pyStrip s).toList) :
    c ∈ s.toList := by
  unfold pyStrip at h
  have h1 : c ∈ ((s.toList.dropWhile Char.isWhitespace).reverse.dropWhile
      Char.isWhitespace).reverse := h
  rw [List.mem_reverse] at h1
  have h2 := (List.dropWhile_sublist Char.isWhitespace).mem h1
  rw [List.mem_reverse] at h2
  exact (List.dropWhile_sublist Char.isWhitespace).mem h2

/-! ### Helper lemmas about the extraction loop -/

lemma extractGo_args (parse : String → Option Json) (x : JSONExtractor)
    (args : CallArgs) :
    ∀ (r : Nat) (e : Nat × CallArgs), e ∈ (extractGo parse x args r).2 →
      e.2 = args := by
  intro r
  induction r with
  | zero => intro e he; simp [extractGo] at he
  | succ r ih =>
    intro e he
    simp only [extractGo] at he
    rcases hs : attemptStep parse x args (x._max_retries - r) with _ | j
    · rw [hs] at he
      simp only [List.mem_cons] at he
      rcases he with he | he
      · rw [he]
      · exact ih e he
    · rw [hs] at he
      simp only [List.mem_singleton] at he
      rw [he]

lemma extractGo_length_le (parse : String → Option Json) (x : JSONExtractor)
    (args : CallArgs) :
    ∀ r : Nat, (extractGo parse x args r).2.length ≤ r := by
  intro r
  induction r with
  | zero => simp [extractGo]
  | succ r ih =>
    simp only [extractGo]
    rcases hs : attemptStep parse x args (x._max_retries - r) with _ | j
    · simpa using ih
    · simp

lemma extractGo_all_none (parse : String → Option Json) (x : JSONExtractor)
    (args : CallArgs)
    (h : ∀ (k : Nat) (a : CallArgs), 1 ≤ k → k ≤ x._max_retries →
      attemptStep parse x a k = none) :
    ∀ r : Nat, r ≤ x._max_retries →
      (extractGo parse x args r).1
          = ExtractOutcome.extractionExhausted x._max_retries ∧
      (extractGo parse x args r).2.length = r := by
  intro r
  induction r with
  | zero => intro _; exact ⟨rfl, rfl⟩
  | succ r ih =>
    intro hr
    have hstep : attemptStep parse x args (x._max_retries - r) = none :=
      h _ args (by omega) (by omega)
    have ihh := ih (by omega)
    simp only [extractGo, hstep]
    exact ⟨ihh.1, by simp [ihh.2]⟩

lemma extractGo_first_some (parse : String → Option Json) (x : JSONExtractor)
    (args : CallArgs) (k : Nat) (j : Json)
    (hnone : ∀ (i : Nat) (a : CallArgs), 1 ≤ i → i < k →
      attemptStep parse x a i = none)
    (hsucc : ∀ a : CallArgs, attemptStep parse x a k = some j) :
    ∀ r : Nat, r ≤ x._max_retries → x._max_retries - r < k →
      k ≤ x._max_retries →
      (extractGo parse x args r).1 = ExtractOutcome.ok j ∧
      (extractGo parse x args r).2.length = k - (x._max_retries - r) := by
  intro r
  induction r with
  | zero => intro _ h1 h2; omega
  | succ r ih =>
    intro hr h1 h2
    by_cases hk : x._max_retries - r = k
    · have hstep : attemptStep parse x args (x._max_retries - r) = some j := by
        rw [hk]
        exact hsucc args
      simp only [extractGo, hstep]
      refine ⟨trivial, ?_⟩
      simp only [List.length_singleton]
      omega
    · have hlt : x._max_retries - r < k := by omega
      have hstep : attemptStep parse x args (x._max_retries - r) = none :=
        hnone _ args (by omega) hlt
      have ihh := ih (by omega) hlt h2
      simp only [extractGo, hstep]
      refine ⟨ihh.1, ?_⟩
      simp [ihh.2]
      omega

/-! ### Claim theorems -/

/-- C3: applied to the exact input string `Hello \x7b"foo": 1, "bar": 2\x7d
goodbye`, the JSON-block locator `_extract_json_block` returns exactly the
substring `\x7b"foo": 1, "bar": 2\x7d`, from the first `\x7b` through the
last `\x7d` inclusive. -/
theorem json_block_surrounding_text :
    extract_json_block "Hello \x7b\"foo\": 1, \"bar\": 2\x7d goodbye"
      = Except.ok "\x7b\"foo\": 1, \"bar\": 2\x7d" := rfl

/-- C4: for every response string that contains no `\x7b` or no `\x7d`, the
JSON-block locator fails with the `ValueError` (a detectable error, not a
crash and not a silent empty result); inside the extraction loop such a
parse failure makes the attempt fail without a further model call — each
attempt performs exactly one call, so the call log never exceeds
`_max_retries` entries. -/
theorem json_block_missing_brace (s : String)
    (h : '{' ∉ s.toList ∨ '}' ∉ s.toList) :
    extract_json_block s
        = Except.error "No JSON object found in the model response" ∧
    (∀ (parse : String → Option Json) (x : JSONExtractor) (args : CallArgs)
        (k : Nat), x._client k args = ModelResult.returns s →
        attemptStep parse x args k = none) ∧
    ∀ (dumps : Json → String) (parse : String → Option Json)
      (x : JSONExtractor) (raw_text : String),
      (x.extract dumps parse raw_text).2.length ≤ x._max_retries := by
  have key : ∀ t : String, ('{' ∉ t.toList ∨ '}' ∉ t.toList) →
      extract_json_block t
        = Except.error "No JSON object found in the model response" := by
    intro t ht
    simp only [extract_json_block]
    rcases ht with ht | ht
    · rw [if_pos (Or.inl ((pyFind_eq_neg_one_iff t _).mpr ht))]
    · rw [if_pos (Or.inr ((pyRfind_eq_neg_one_iff t _).mpr ht))]
  have hstrip : '{' ∉ (pyStrip s).toList ∨ '}' ∉ (pyStrip s).toList := by
    rcases h with h | h
    · exact Or.inl (fun hc => h (mem_pyStrip s _ hc))
    · exact Or.inr (fun hc => h (mem_pyStrip s _ hc))
  refine ⟨key s h, ?_, ?_⟩
  · intro parse x args k hc
    simp only [attemptStep, hc, key (pyStrip s) hstrip]
  · intro dumps parse x raw_text
    simp only [JSONExtractor.extract]
    exact extractGo_length_le parse x _ x._max_retries

/-- Witness for C4 at the concrete brace-free response of the unit test. -/
theorem json_block_missing_brace_witness :
    ('{' ∉ ("No braces here" : String).toList ∨
      '}' ∉ ("No braces here" : String).toList) ∧
    extract_json_block "No braces here"
      = Except.error "No JSON object found in the model response" :=
  ⟨by decide, (json_block_missing_brace "No braces here" (by decide)).1⟩

/-- C9: for every input containing both braces but whose last `\x7d` occurs
before its first `\x7b`, `_extract_json_block` does not raise: it returns
the empty string, and inside an attempt that string goes straight to the
JSON parse (`json.loads`), which is where the failure then arises. -/
theorem json_block_reversed_braces (s : String)
    (h1 : '{' ∈ s.toList) (h2 : '}' ∈ s.toList)
    (h3 : pyRfind s '}' < pyFind s '{') :
    extract_json_block s = Except.ok "" ∧
    ∀ (parse : String → Option Json) (x : JSONExtractor) (args : CallArgs)
      (k : Nat) (content : String),
      x._client k args = ModelResult.returns content → pyStrip content = s →
      attemptStep parse x args k = parse "" := by
  have hf : pyFind s '{' ≠ -1 :=
    fun hc => ((pyFind_eq_neg_one_iff s _).mp hc) h1
  have hr : pyRfind s '}' ≠ -1 :=
    fun hc => ((pyRfind_eq_neg_one_iff s _).mp hc) h2
  have hf0 : 0 ≤ pyFind s '{' := pyFind_nonneg_of_ne _ _ hf
  have hr0 : 0 ≤ pyRfind s '}' := pyRfind_nonneg_of_ne _ _ hr
  have hblock : extract_json_block s = Except.ok "" := by
    simp only [extract_json_block]
    rw [if_neg (not_or.mpr ⟨hf, hr⟩)]
    exact congrArg Except.ok (pySlice_eq_empty s _ _ (by omega))
  refine ⟨hblock, ?_⟩
  intro parse x args k content hc hstripc
  simp only [attemptStep, hc, hstripc, hblock]

/-- Witness for C9 at the concrete input where the braces are reversed. -/
theorem json_block_reversed_braces_witness :
    pyRfind "\x7d \x7b" '}' < pyFind "\x7d \x7b" '{' ∧
    extract_json_block "\x7d \x7b" = Except.ok "" :=
  ⟨by decide,
    (json_block_reversed_braces "\x7d \x7b" (by decide) (by decide)
      (by decide)).1⟩

/-- C1: for every `raw_text`, if every one of the configured attempts fails
(the model call raises, or its response cannot be turned into parsed JSON),
then `extract` performs exactly `_max_retries` attempts — the call log has
exactly `_max_retries` entries, never more — and then fails with the
terminal exhaustion error carrying `_max_retries`; it never succeeds
partially. -/
theorem extract_exhausts_after_max_retries (dumps : Json → String)
    (parse : String → Option Json) (x : JSONExtractor) (raw_text : String)
    (h : ∀ (k : Nat) (args : CallArgs), 1 ≤ k → k ≤ x._max_retries →
      attemptStep parse x args k = none) :
    (x.extract dumps parse raw_text).1
        = ExtractOutcome.extractionExhausted x._max_retries ∧
    (x.extract dumps parse raw_text).2.length = x._max_retries := by
  simp only [JSONExtractor.extract]
  exact extractGo_all_none parse x _ h x._max_retries (le_refl _)

/-- Witness for C1: a client whose every call raises, with three retries. -/
theorem extract_exhausts_after_max_retries_witness :
    (JSONExtractor.extract (fun _ => "") (fun _ => none)
        { _client := fun _ _ => ModelResult.raises, _deployment := "d",
          _temperature := 0.0, _max_retries := 3, _max_tokens := 1024 }
        "text").1
      = ExtractOutcome.extractionExhausted 3 ∧
    (JSONExtractor.extract (fun _ => "") (fun _ => none)
        { _client := fun _ _ => ModelResult.raises, _deployment := "d",
          _temperature := 0.0, _max_retries := 3, _max_tokens := 1024 }
        "text").2.length = 3 :=
  extract_exhausts_after_max_retries _ _ _ _ (fun _ _ _ _ => rfl)

/-- C2: if attempt `k` (with `k ≤ _max_retries`) is the first whose response
yields a parseable JSON object `j`, then `extract` returns `j` and the call
log has exactly `k` entries — no model call is made after attempt `k`. -/
theorem extract_first_success (dumps : Json → String)
    (parse : String → Option Json) (x : JSONExtractor) (raw_text : String)
    (k : Nat) (j : Json) (hk1 : 1 ≤ k) (hkM : k ≤ x._max_retries)
    (hnone : ∀ (i : Nat) (args : CallArgs), 1 ≤ i → i < k →
      attemptStep parse x args i = none)
    (hsucc : ∀ args : CallArgs, attemptStep parse x args k = some j) :
    (x.extract dumps parse raw_text).1 = ExtractOutcome.ok j ∧
    (x.extract dumps parse raw_text).2.length = k := by
  simp only [JSONExtractor.extract]
  have main := extractGo_first_some parse x
    { model := x._deployment, system_content := SYSTEM_CONTENT,
      user_content := _build_prompt dumps raw_text,
      max_tokens := x._max_tokens, temperature := x._temperature,
      top_p := 1.0 } k j hnone hsucc x._max_retries (le_refl _) (by omega) hkM
  refine ⟨main.1, ?_⟩
  rw [main.2]
  omega

/-- Witness for C2: `max_retries = 3`, two brace-free responses followed by a
valid one — exactly three calls are made and the third record is returned. -/
theorem extract_first_success_witness :
    (JSONExtractor.extract (fun _ => "")
        (fun t => if t = "\x7b\x7d" then some (Json.obj []) else none)
        { _client := fun i _ =>
            if i ≤ 2 then ModelResult.returns "no json here"
            else ModelResult.returns "\x7b\x7d",
          _deployment := "d", _temperature := 0.0, _max_retries := 3,
          _max_tokens := 1024 } "text").1
      = ExtractOutcome.ok (Json.obj []) ∧
    (JSONExtractor.extract (fun _ => "")
        (fun t => if t = "\x7b\x7d" then some (Json.obj []) else none)
        { _client := fun i _ =>
            if i ≤ 2 then ModelResult.returns "no json here"
            else ModelResult.returns "\x7b\x7d",
          _deployment := "d", _temperature := 0.0, _max_retries := 3,
          _max_tokens := 1024 } "text").2.length = 3 :=
  extract_first_success _ _ _ _ 3 (Json.obj []) (by decide) (by decide)
    (fun i args h1 h2 => by interval_cases i <;> rfl)
    (fun args => rfl)

/-- C5: a successful `extract` enforces nothing beyond "is valid JSON": when
the first attempt's response strips and brace-slices to a payload that the
JSON parse accepts as the value `j`, then `extract` returns `j` unchanged,
even when the top-level keys of `j` differ from the schema's keys — no
key-presence or value-type validation against `_SCHEMA` happens after
parsing. -/
theorem extract_skips_schema_validation (dumps : Json → String)
    (parse : String → Option Json) (x : JSONExtractor)
    (raw_text content json_str : String) (j : Json)
    (hM : 1 ≤ x._max_retries)
    (hclient : ∀ args : CallArgs,
      x._client 1 args = ModelResult.returns content)
    (hblock : extract_json_block (pyStrip content) = Except.ok json_str)
    (hparse : parse json_str = some j)
    (hkeys : j.keys ≠ SCHEMA.keys) :
    (x.extract dumps parse raw_text).1 = ExtractOutcome.ok j := by
  have hsucc : ∀ args : CallArgs, attemptStep parse x args 1 = some j := by
    intro args
    simp only [attemptStep, hclient args, hblock, hparse]
  simp only [JSONExtractor.extract]
  exact (extractGo_first_some parse x _ 1 j (fun i a hi1 hi2 => by omega)
    hsucc x._max_retries (le_refl _) (by omega) hM).1

/-- Witness for C5: a response whose payload is an object with the single
key `zzz`, absent from the schema, returned unchanged. -/
theorem extract_skips_schema_validation_witness :
    (Json.obj [("zzz", Json.num 1)]).keys ≠ SCHEMA.keys ∧
    (JSONExtractor.extract (fun _ => "")
        (fun t => if t = "\x7b\"zzz\": 1\x7d"
          then some (Json.obj [("zzz", Json.num 1)]) else none)
        { _client := fun _ _ => ModelResult.returns "\x7b\"zzz\": 1\x7d",
          _deployment := "d", _temperature := 0.0, _max_retries := 3,
          _max_tokens := 1024 } "text").1
      = ExtractOutcome.ok (Json.obj [("zzz", Json.num 1)]) :=
  ⟨by decide,
    extract_skips_schema_validation _ _ _ _ "\x7b\"zzz\": 1\x7d"
      "\x7b\"zzz\": 1\x7d" _ (by decide) (fun args => rfl) rfl rfl
      (by decide)⟩

/-- C7: every model call of an `extract` run carries the same user prompt,
namely `_build_prompt` of the raw text, and that prompt is the fixed
instruction, followed by the serialized schema, followed by `raw_text`
verbatim between the explicit begin/end fact-sheet markers. -/
theorem extract_prompt_uniform (dumps : Json → String)
    (parse : String → Option Json) (x : JSONExtractor) (raw_text : String)
    (call : Nat × CallArgs)
    (hcall : call ∈ (x.extract dumps parse raw_text).2) :
    call.2.user_content = _build_prompt dumps raw_text ∧
    _build_prompt dumps raw_text
      = INSTRUCTION ++ dumps SCHEMA ++ "\n\n--- BEGIN FACT SHEET ---\n"
          ++ raw_text ++ "\n--- END FACT SHEET ---" := by
  refine ⟨?_, rfl⟩
  simp only [JSONExtractor.extract] at hcall
  have harg := extractGo_args parse x _ x._max_retries call hcall
  rw [harg]

/-- Witness for C7 at a one-retry run whose single call is logged. -/
theorem extract_prompt_uniform_witness :
    ((1 : Nat),
      ({ model := "d", system_content := SYSTEM_CONTENT,
         user_content := _build_prompt (fun _ => "S") "R", max_tokens := 2,
         temperature := 0.0, top_p := 1.0 } : CallArgs)).2.user_content
      = _build_prompt (fun _ => "S") "R" ∧
    _build_prompt (fun _ => "S") "R"
      = INSTRUCTION ++ (fun _ : Json => "S") SCHEMA
          ++ "\n\n--- BEGIN FACT SHEET ---\n" ++ "R"
          ++ "\n--- END FACT SHEET ---" :=
  extract_prompt_uniform (fun _ => "S") (fun _ => none)
    { _client := fun _ _ => ModelResult.raises, _deployment := "d",
      _temperature := 0.0, _max_retries := 1, _max_tokens := 2 } "R"
    (1,
      { model := "d", system_content := SYSTEM_CONTENT,
        user_content := _build_prompt (fun _ => "S") "R", max_tokens := 2,
        temperature := 0.0, top_p := 1.0 })
    (List.Mem.head _)

/-- C10: the module-level convenience function `extract_json` behaves
identically to constructing a `JSONExtractor` with the same client,
deployment and temperature and the defaults `max_retries = 3` and
`max_tokens = 1024`, then calling its `extract`: same outcome and same call
log on every input. -/
theorem extract_json_matches_extractor (dumps : Json → String)
    (parse : String → Option Json) (raw_text : String)
    (client : Nat → CallArgs → ModelResult) (deployment : String)
    (temperature : Float) :
    extract_json dumps parse raw_text client deployment temperature
      = JSONExtractor.extract dumps parse
          { _client := client, _deployment := deployment,
            _temperature := temperature, _max_retries := 3,
            _max_tokens := 1024 } raw_text := rfl

/-- C6 (on the intended statements of `extract_text_from_pdf`, whose source
is dedented and cannot run — see the definition's comment): on the unit
test's two-page document the modelled function returns the pages joined by
a single newline, as the test `test_extract_text_uses_context_manager`
asserts. -/
theorem extract_text_two_pages :
    extract_text_from_pdf ["a", "b"] = "a\nb" := rfl

/-- C8 counterexample: with `chunk_overlap = chunk_size = 10` — a
configuration the claim says must fail fast before any other work — the
pipeline performs text extraction as its very first step, even when the
external splitter constructor rejects the configuration; `parse_and_embed`
raises no configuration error of its own. -/
theorem parse_and_embed_no_fail_fast :
    10 ≥ 10 ∧
    (parse_and_embed (fun _ _ => false) ["page"] 10 10 true).head?
        = some PipelineStep.extractTextStep ∧
    PipelineStep.extractTextStep
      ∈ parse_and_embed (fun _ _ => false) ["page"] 10 10 true :=
  ⟨by omega, rfl, by decide⟩

/-- C8 (amended): `parse_and_embed` performs no chunk-configuration
validation of its own; for every configuration with
`chunk_overlap ≥ chunk_size` its first action is text extraction, and the
splitter configuration — where any overlap error could arise, inside the
external library — is handled only afterwards. -/
theorem parse_and_embed_extracts_before_splitter
    (splitter_ok : Nat → Nat → Bool) (doc : List String)
    (chunk_size chunk_overlap : Nat) (return_vectorstore : Bool)
    (h : chunk_size ≤ chunk_overlap) :
    ∃ rest, parse_and_embed splitter_ok doc chunk_size chunk_overlap
        return_vectorstore
      = PipelineStep.extractTextStep ::
          PipelineStep.constructSplitterStep chunk_size chunk_overlap ::
          rest :=
  ⟨_, rfl⟩

/-- Witness for the amended C8 at a concrete configuration. -/
theorem parse_and_embed_extracts_before_splitter_witness :
    5 ≤ 7 ∧
    ∃ rest, parse_and_embed (fun _ _ => true) [] 5 7 false
      = PipelineStep.extractTextStep ::
          PipelineStep.constructSplitterStep 5 7 :: rest :=
  ⟨by decide,
    parse_and_embed_extracts_before_splitter (fun _ _ => true) [] 5 7 false
      (by decide)⟩

end ITDB
